import Mathlib

/-!
# Verification of the Terraform AI agent RAG pipeline

Shallow embedding of `app/rag_engine.py` and `app/azure_terraform_agent.py`.
Python strings are modelled as `List Char`; the Python string methods used by
the code (`strip`, `lower`, `split`, `replace`, `startswith`, `endswith`,
substring membership `in`) are modelled as executable functions below.
Language-model calls are modelled as oracle values (`Except` of the raised
exception's text or the response content), so every pipeline function becomes
a pure function of its oracle inputs.
-/

/-- Python `str`, modelled as a list of characters. -/
abbrev PyStr := List Char

/-- Python `str.lower()` (ASCII case folding, which covers every character the
engine compares against). -/
def pyLower (s : PyStr) : PyStr := s.map Char.toLower

/-- Python `str.strip()`: remove leading and trailing whitespace. -/
def pyStrip (s : PyStr) : PyStr :=
  ((s.dropWhile Char.isWhitespace).reverse.dropWhile Char.isWhitespace).reverse

/-- Python `str.split(sep)` for a one-character separator (the code only ever
splits on `'\n'` and `','`): empty fields are kept, and the result always has
at least one element. -/
def pySplitChar (c : Char) : PyStr → List PyStr
  | [] => [[]]
  | x :: xs =>
    if x = c then [] :: pySplitChar c xs
    else
      match pySplitChar c xs with
      | t :: ts => (x :: t) :: ts
      | [] => [[x]]

/-- Recursion core of Python `str.replace(old, new)`: scan left to right,
replacing each non-overlapping occurrence of `pat`. Structural recursion on a
fuel counter so the definition reduces in the kernel; every recursive call
consumes at least one character of `s`, so fuel `s.length` is enough. -/
def pyReplaceFuel (pat repl : PyStr) : Nat → PyStr → PyStr
  | 0, s => s
  | fuel + 1, s =>
    match s with
    | [] => []
    | x :: xs =>
      if pat ≠ [] ∧ pat.isPrefixOf (x :: xs) then
        repl ++ pyReplaceFuel pat repl fuel ((x :: xs).drop pat.length)
      else
        x :: pyReplaceFuel pat repl fuel xs

/-- Python `str.replace(old, new)`: replace every non-overlapping occurrence of
`pat`, scanning left to right. -/
def pyReplace (pat repl s : PyStr) : PyStr := pyReplaceFuel pat repl s.length s

/-- Python `str.startswith(pre)`. -/
def pyStartsWith (pre s : PyStr) : Bool := pre.isPrefixOf s

/-- Python `str.endswith(suf)`. -/
def pyEndsWith (suf s : PyStr) : Bool := suf.isSuffixOf s

/-- Python substring membership `pat in s` (contiguous substring). -/
def pyContains (pat : PyStr) : PyStr → Bool
  | [] => pat.isEmpty
  | x :: xs => pat.isPrefixOf (x :: xs) || pyContains pat xs

/-- Result of invoking the language model: either the raised exception's text
or the response's `content` string. -/
abbrev LLMResult := Except PyStr PyStr

/-- `result.content.strip().lower().split('\n')` from
`TerraformRAGEngine._validate_query` (rag_engine.py line 80). -/
def response_lines (content : PyStr) : List PyStr :=
  pySplitChar '\n' (pyLower (pyStrip content))

/-- One iteration of the `for line in response_lines` loop of
`_validate_query` (rag_engine.py lines 85-89): a `valid:` line overwrites the
boolean, otherwise a `reason:` line overwrites the reason. -/
def vstep (acc : Bool × PyStr) (line : PyStr) : Bool × PyStr :=
  if pyStartsWith "valid:".toList line then
    (pyContains "true".toList (pyLower line), acc.2)
  else if pyStartsWith "reason:".toList line then
    (acc.1, pyStrip (line.drop 7))
  else acc

/-- The parsing part of `TerraformRAGEngine._validate_query`
(rag_engine.py lines 79-90): fold the line loop over the response lines,
starting from the defaults `is_valid = False`, `reason = "Invalid query
format"`. -/
def validate_parse (content : PyStr) : Bool × PyStr :=
  (response_lines content).foldl vstep (false, "Invalid query format".toList)

/-- `TerraformRAGEngine._validate_query` (rag_engine.py lines 45-92) as a
function of the validator model call's outcome: on an exception `e` return
`(False, "Error validating query: " + str(e))`, otherwise parse the content. -/
def validate_query (llm : LLMResult) : Bool × PyStr :=
  match llm with
  | .ok content => validate_parse content
  | .error e => (false, "Error validating query: ".toList ++ e)

/-- The validator parsing policy as the spec states it (spec §4.4): scanning
case-insensitively, the FIRST line beginning with `valid:` sets the boolean by
substring match on `true`, the FIRST line beginning with `reason:` sets the
reason, with fail-closed defaults. Written from the spec's words for
comparison with `validate_parse`, which is written from the code. -/
def validate_parse_spec (content : PyStr) : Bool × PyStr :=
  let lines := response_lines content
  ((match lines.find? (fun l => pyStartsWith "valid:".toList l) with
    | some l => pyContains "true".toList (pyLower l)
    | none => false),
   (match lines.find? (fun l => pyStartsWith "reason:".toList l) with
    | some l => pyStrip (l.drop 7)
    | none => "Invalid query format".toList))

/-- A response line that enters the `valid:` branch of the parsing loop
(rag_engine.py line 86). -/
def isValidLine (l : PyStr) : Bool := pyStartsWith "valid:".toList l

/-- A response line that enters the `reason:` branch of the parsing loop:
the `elif` at rag_engine.py line 88 requires the `valid:` test to have
failed first. -/
def isReasonLine (l : PyStr) : Bool :=
  !pyStartsWith "valid:".toList l && pyStartsWith "reason:".toList l

/-- `TerraformRAGEngine._get_relevant_templates` (rag_engine.py lines 120-140)
as a function of the classifier model call's outcome: on an exception, or when
`result.content` is empty (falsy), return the default
`["virtual_machine", "storage"]`; otherwise split the content on commas and
strip each token. -/
def get_relevant_templates (llm : LLMResult) : List PyStr :=
  match llm with
  | .error _ => ["virtual_machine".toList, "storage".toList]
  | .ok content =>
    if content.isEmpty then ["virtual_machine".toList, "storage".toList]
    else (pySplitChar ',' content).map pyStrip

/-- A LangChain `Document`: the engine only ever sets `page_content` and the
metadata keys `source` and `type` (rag_engine.py lines 103-106). -/
structure Document where
  page_content : PyStr
  source : PyStr
  type : PyStr
deriving DecidableEq

/-- `TerraformRAGEngine._load_templates` (rag_engine.py lines 94-109) as a
function of the directory listing, given as `(filename, file content)` pairs:
keep the files whose name ends with `.tf`, and tag each document with
`type = filename.replace('.tf', '')`. -/
def load_templates (files : List (PyStr × PyStr)) : List Document :=
  files.filterMap fun fc =>
    if pyEndsWith ".tf".toList fc.1 then
      some { page_content := fc.2
             source := fc.1
             type := pyReplace ".tf".toList [] fc.1 }
    else none

/-- Modelled from the spec: LangChain's
`RecursiveCharacterTextSplitter.split_documents` (called at rag_engine.py
line 114) is library code not in this repository. Its text-splitting algorithm
is abstracted as a parameter `splitText`; what is modelled is its metadata
handling, which the spec §4.2 states ("preserves the source label on every
chunk"): each document is split into pieces of its `page_content`, and every
piece becomes a chunk carrying an unchanged copy of the source document's
metadata. -/
def split_documents (splitText : PyStr → List PyStr) (docs : List Document) :
    List Document :=
  docs.flatMap fun doc =>
    (splitText doc.page_content).map fun piece =>
      { page_content := piece, source := doc.source, type := doc.type }

/-- `TerraformRAGEngine._initialize_vector_store` (rag_engine.py lines
111-118): the chunk set handed to `Chroma.from_documents` is the split of the
loaded templates. -/
def initialize_vector_store (splitText : PyStr → List PyStr)
    (files : List (PyStr × PyStr)) : List Document :=
  split_documents splitText (load_templates files)

/-- A raised Python exception, distinguished by the classes the code raises
and the UI branches on: `ValueError` (caught separately by the Streamlit UI),
`FileNotFoundError` (from `os.listdir` / the agent's directory check), and
any other `Exception`. -/
inductive PyError where
  | valueError (msg : PyStr)
  | fileNotFound (msg : PyStr)
  | exception (msg : PyStr)
deriving DecidableEq

/-- `True` exactly for the `ValueError` class, the class
`azure_terraform_agent.py` line 113 branches on for the out-of-scope UI path. -/
def isValueError : Except PyError PyStr → Bool
  | .error (.valueError _) => true
  | _ => false

/-- How many times `generate_terraform` invoked each downstream component,
and the `filter` list handed to the retriever (rag_engine.py lines 156-160),
`none` when no retriever was built. -/
structure Trace where
  classifier_calls : Nat
  retriever_calls : Nat
  synthesis_calls : Nat
  retriever_filter : Option (List PyStr)
deriving DecidableEq

/-- Oracle outcomes of the three external calls a single
`generate_terraform` run can make: the validator model call, the classifier
model call, and the retrieval chain invocation. The chain's response is a
dict; only the presence and value of its `"answer"` key matter
(rag_engine.py lines 193-196), so it is modelled as `Option PyStr`. -/
structure Env where
  validate_llm : LLMResult
  classify_llm : LLMResult
  synth : Except PyStr (Option PyStr)

/-- `TerraformRAGEngine.generate_terraform` (rag_engine.py lines 142-203):
validate; if invalid raise `ValueError("Query is out of scope: " + reason)`
(re-raised unchanged by the `except ValueError` arm) with no further
component invoked; otherwise classify, build the retriever with the
classified types as filter, run the retrieval chain (modelled as one
retriever call and one synthesis call), raise
`ValueError("No response generated from the model")` if the response lacks
the `"answer"` key, and wrap any non-`ValueError` exception into
`Exception("Failed to generate Terraform configuration: " + detail)`. -/
def generate_terraform (env : Env) : Except PyError PyStr × Trace :=
  let v := validate_query env.validate_llm
  if !v.1 then
    (.error (.valueError ("Query is out of scope: ".toList ++ v.2)),
     ⟨0, 0, 0, none⟩)
  else
    let relevant_types := get_relevant_templates env.classify_llm
    match env.synth with
    | .error e =>
      (.error (.exception ("Failed to generate Terraform configuration: ".toList ++ e)),
       ⟨1, 1, 1, some relevant_types⟩)
    | .ok none =>
      (.error (.valueError "No response generated from the model".toList),
       ⟨1, 1, 1, some relevant_types⟩)
    | .ok (some answer) =>
      (.ok answer, ⟨1, 1, 1, some relevant_types⟩)

/-- The world a constructor run observes: the `OPENAI_API_KEY` environment
variable, the outcome of the embedding smoke test
`self.embeddings.embed_query("test")` (a network call), whether the template
directory exists, and its listing. Embedding vectors are opaque; only
emptiness of the smoke-test result matters (rag_engine.py line 27). -/
structure InitWorld where
  api_key : Option PyStr
  embed_test : Except PyStr (List Int)
  template_dir : PyStr
  dir_exists : Bool
  files : List (PyStr × PyStr)

/-- `TerraformRAGEngine.__init__` (rag_engine.py lines 14-44), returning the
constructed vector-store chunk set or the raised error, paired with the
number of network calls made. Steps in code order: check the API key (no
network); run the embedding smoke test (one network call), wrapping any
failure — including an empty result — into
`ValueError("Failed to initialize OpenAI embeddings: ...")`; then
`_initialize_vector_store`, where `os.listdir` raises `FileNotFoundError`
if the directory does not exist, and `Chroma.from_documents` embeds each
chunk (one network call per chunk). -/
def engine_init (splitText : PyStr → List PyStr) (w : InitWorld) :
    Except PyError (List Document) × Nat :=
  match w.api_key with
  | none =>
    (.error (.valueError "OpenAI API key not found in environment variables".toList), 0)
  | some _ =>
    match w.embed_test with
    | .error e =>
      (.error (.valueError ("Failed to initialize OpenAI embeddings: ".toList ++ e)), 1)
    | .ok v =>
      if v.isEmpty then
        (.error (.valueError
          "Failed to initialize OpenAI embeddings: Failed to generate embeddings".toList), 1)
      else if !w.dir_exists then
        (.error (.fileNotFound w.template_dir), 1)
      else
        let chunks := initialize_vector_store splitText w.files
        (.ok chunks, 1 + chunks.length)

/-- `AzureTerraformAgent.__init__` (azure_terraform_agent.py lines 24-34):
check the API key, then `os.path.exists` on the template directory — raising
`FileNotFoundError("Template directory not found: " + dir)` when it does not
exist — and only then construct `TerraformRAGEngine`. Returns the result and
the number of network calls made. -/
def agent_init (splitText : PyStr → List PyStr) (w : InitWorld) :
    Except PyError (List Document) × Nat :=
  match w.api_key with
  | none =>
    (.error (.valueError "Missing OPENAI_API_KEY environment variable".toList), 0)
  | some _ =>
    if !w.dir_exists then
      (.error (.fileNotFound ("Template directory not found: ".toList ++ w.template_dir)), 0)
    else
      engine_init splitText w

/-! ## Helper lemmas -/

/-- Splitting on a character never yields the empty list (Python `str.split`
always returns at least one field). -/
theorem pySplitChar_ne_nil (c : Char) (s : PyStr) : pySplitChar c s ≠ [] := by
  induction s with
  | nil => simp [pySplitChar]
  | cons x xs ih =>
    simp only [pySplitChar]
    split
    · simp
    · rcases h : pySplitChar c xs with _ | ⟨t, ts⟩ <;> simp

/-- The boolean produced by the `_validate_query` line loop is decided by the
last line entering the `valid:` branch (the first such line of the reversed
line list); if there is none, the accumulator's boolean survives. -/
theorem foldl_vstep_fst (lines : List PyStr) (acc : Bool × PyStr) :
    (lines.foldl vstep acc).1 =
      (lines.reverse.find? isValidLine).elim acc.1
        (fun l => pyContains "true".toList (pyLower l)) := by
  induction lines generalizing acc with
  | nil => rfl
  | cons l ls ih =>
    rw [List.foldl_cons, ih]
    simp only [List.reverse_cons, List.find?_append]
    rcases h : ls.reverse.find? isValidLine with _ | x
    · simp only [Option.none_or]
      by_cases hv : isValidLine l
      · simp only [List.find?_cons, hv, Option.elim]
        simp only [vstep, isValidLine] at hv ⊢
        rw [if_pos hv]
      · simp only [List.find?_cons, hv]
        simp only [Bool.false_eq_true, List.find?_nil, Option.elim]
        simp only [vstep, isValidLine] at hv ⊢
        rw [if_neg hv]
        split <;> rfl
    · rfl

/-- The reason produced by the `_validate_query` line loop is decided by the
last line entering the `reason:` branch; if there is none, the accumulator's
reason survives. -/
theorem foldl_vstep_snd (lines : List PyStr) (acc : Bool × PyStr) :
    (lines.foldl vstep acc).2 =
      (lines.reverse.find? isReasonLine).elim acc.2
        (fun l => pyStrip (l.drop 7)) := by
  induction lines generalizing acc with
  | nil => rfl
  | cons l ls ih =>
    rw [List.foldl_cons, ih]
    simp only [List.reverse_cons, List.find?_append]
    rcases h : ls.reverse.find? isReasonLine with _ | x
    · simp only [Option.none_or]
      by_cases hr : isReasonLine l
      · simp only [List.find?_cons, hr, Option.elim]
        simp only [isReasonLine, Bool.and_eq_true, Bool.not_eq_true'] at hr
        simp only [vstep]
        rw [if_neg (Bool.eq_false_iff.mp hr.1), if_pos hr.2]
      · simp only [List.find?_cons, hr]
        simp only [Bool.false_eq_true, List.find?_nil, Option.elim]
        simp only [isReasonLine, Bool.and_eq_true, Bool.not_eq_true'] at hr
        simp only [vstep]
        by_cases hv : pyStartsWith "valid:".toList l = true
        · rw [if_pos hv]
        · rw [if_neg hv]
          rw [if_neg (fun hc => hr ⟨(Bool.not_eq_true _) ▸ hv, hc⟩)]
    · rfl

/-! ## Claim theorems -/

/-- C1: whenever the Query Validator reports the query out of scope,
`generate_terraform` invokes none of the classifier, retriever, or synthesis
chain (zero calls to each, and no retriever filter is ever built), and the
`ValueError` surfaced to the caller carries the validator's reason text. -/
theorem generate_terraform_short_circuit (env : Env)
    (h : (validate_query env.validate_llm).1 = false) :
    generate_terraform env =
      (.error (.valueError
        ("Query is out of scope: ".toList ++ (validate_query env.validate_llm).2)),
       ⟨0, 0, 0, none⟩) := by
  simp only [generate_terraform, h, Bool.not_false, if_pos]

theorem generate_terraform_short_circuit_witness :
    generate_terraform
        ⟨.ok "valid: false\nreason: not about azure".toList, .ok "storage".toList,
         .ok (some "out".toList)⟩ =
      (.error (.valueError "Query is out of scope: not about azure".toList),
       ⟨0, 0, 0, none⟩) :=
  generate_terraform_short_circuit
    ⟨.ok "valid: false\nreason: not about azure".toList, .ok "storage".toList,
     .ok (some "out".toList)⟩ (by decide)

/-- C2: if no response line (after stripping and lowercasing) begins with
`valid:`, `_validate_query` reports the query not valid — fail closed — and
if additionally no line begins with `reason:`, it returns exactly
`(False, "Invalid query format")`. -/
theorem validate_query_fail_closed_default (content : PyStr)
    (hv : ∀ l ∈ response_lines content, pyStartsWith "valid:".toList l = false) :
    (validate_query (.ok content)).1 = false ∧
    ((∀ l ∈ response_lines content, pyStartsWith "reason:".toList l = false) →
      validate_query (.ok content) = (false, "Invalid query format".toList)) := by
  have hfv : (response_lines content).reverse.find? isValidLine = none := by
    rw [List.find?_eq_none]
    intro x hx
    rw [List.mem_reverse] at hx
    simp only [isValidLine, hv x hx, Bool.false_eq_true, not_false_eq_true]
  have h1 := foldl_vstep_fst (response_lines content)
    (false, "Invalid query format".toList)
  rw [hfv] at h1
  refine ⟨h1, fun hr => ?_⟩
  have hfr : (response_lines content).reverse.find? isReasonLine = none := by
    rw [List.find?_eq_none]
    intro x hx
    rw [List.mem_reverse] at hx
    simp only [isReasonLine, hr x hx, Bool.and_false, Bool.false_eq_true,
      not_false_eq_true]
  have h2 := foldl_vstep_snd (response_lines content)
    (false, "Invalid query format".toList)
  rw [hfr] at h2
  exact Prod.ext h1 h2

theorem validate_query_fail_closed_default_witness :
    (validate_query (.ok "reason: nope".toList)).1 = false ∧
    validate_query (.ok "hello world".toList) =
      (false, "Invalid query format".toList) :=
  ⟨(validate_query_fail_closed_default "reason: nope".toList (by decide)).1,
   (validate_query_fail_closed_default "hello world".toList (by decide)).2 (by decide)⟩

/-- C3: when the validator's model call raises an exception with text `e`,
`_validate_query` returns `(False, "Error validating query: " + e)`; in
particular the query is never reported in scope on a call failure. -/
theorem validate_query_error_fail_closed (e : PyStr) :
    validate_query (.error e) = (false, "Error validating query: ".toList ++ e) ∧
    (validate_query (.error e)).1 = false :=
  ⟨rfl, rfl⟩

/-- C4: when the classifier's model call raises an exception or returns empty
content, `_get_relevant_templates` returns exactly the two-element default
list `["virtual_machine", "storage"]`. -/
theorem get_relevant_templates_fallback (e : PyStr) :
    get_relevant_templates (.error e) =
      ["virtual_machine".toList, "storage".toList] ∧
    get_relevant_templates (.ok []) =
      ["virtual_machine".toList, "storage".toList] :=
  ⟨rfl, rfl⟩

/-- C6 counterexample: on the response `"valid: true\nvalid: nope"`, whose
FIRST `valid:` line contains `true`, the spec's first-line-wins policy
(`validate_parse_spec`) yields `True`, but the code (`validate_parse`)
yields `False`: the loop lets the LAST `valid:` line overwrite earlier
ones. -/
theorem validator_first_line_counterexample :
    (validate_parse_spec "valid: true\nvalid: nope".toList).1 = true ∧
    (validate_parse "valid: true\nvalid: nope".toList).1 = false := by
  decide

/-- C6 amended: `_validate_query`'s parsing is case-insensitive (the response
is lowercased before scanning), and the LAST line beginning with `valid:`
determines the boolean (true iff it contains the substring `true`), while the
LAST line entering the `reason:` branch determines the reason; with no such
line the fail-closed defaults survive. (Stated via `find?` on the reversed
line list: the first match of the reversal is the last matching line.) -/
theorem validate_parse_last_line_wins (content : PyStr) :
    validate_parse content =
      (((response_lines content).reverse.find? isValidLine).elim false
         (fun l => pyContains "true".toList (pyLower l)),
       ((response_lines content).reverse.find? isReasonLine).elim
         "Invalid query format".toList (fun l => pyStrip (l.drop 7))) :=
  Prod.ext
    (foldl_vstep_fst (response_lines content) (false, "Invalid query format".toList))
    (foldl_vstep_snd (response_lines content) (false, "Invalid query format".toList))

/-- C5 counterexample: when the validator accepts but the synthesis response
lacks the `answer` field, `generate_terraform` raises `ValueError` — the SAME
error class it raises for an out-of-scope rejection (and the class the UI's
`except ValueError` arm renders as the out-of-scope guidance message) — not a
distinct generic generation-failure class. -/
theorem missing_answer_same_kind_counterexample :
    (generate_terraform
        ⟨.ok "valid: true".toList, .ok "storage".toList, .ok none⟩).1 =
      .error (.valueError "No response generated from the model".toList) ∧
    isValueError (generate_terraform
        ⟨.ok "valid: true".toList, .ok "storage".toList, .ok none⟩).1 = true ∧
    isValueError (generate_terraform
        ⟨.ok "valid: false".toList, .ok "storage".toList, .ok none⟩).1 = true :=
  ⟨rfl, rfl, rfl⟩

/-- C5 amended: `generate_terraform` raises `ValueError` both when the
validator rejects the query (message `"Query is out of scope: <reason>"`) and
when the synthesis response lacks the `answer` field (message
`"No response generated from the model"`); only a synthesis call that raises
is wrapped into the distinct generic
`Exception("Failed to generate Terraform configuration: <detail>")`. A caller
can therefore not distinguish the two `ValueError` cases by error kind, only
by message text. -/
theorem generate_terraform_error_kinds (env : Env) :
    ((validate_query env.validate_llm).1 = false →
      (generate_terraform env).1 =
        .error (.valueError
          ("Query is out of scope: ".toList ++ (validate_query env.validate_llm).2))) ∧
    ((validate_query env.validate_llm).1 = true → env.synth = .ok none →
      (generate_terraform env).1 =
        .error (.valueError "No response generated from the model".toList)) ∧
    (∀ e, (validate_query env.validate_llm).1 = true → env.synth = .error e →
      (generate_terraform env).1 =
        .error (.exception
          ("Failed to generate Terraform configuration: ".toList ++ e))) := by
  refine ⟨fun h => ?_, fun h hs => ?_, fun e h hs => ?_⟩
  · simp only [generate_terraform, h, Bool.not_false, if_pos]
  · simp only [generate_terraform, h, Bool.not_true, Bool.false_eq_true, if_false, hs]
  · simp only [generate_terraform, h, Bool.not_true, Bool.false_eq_true, if_false, hs]

theorem generate_terraform_error_kinds_witness :
    (generate_terraform ⟨.ok "valid: false".toList, .ok [], .ok none⟩).1 =
      .error (.valueError
        ("Query is out of scope: ".toList ++
          (validate_query (.ok "valid: false".toList)).2)) ∧
    (generate_terraform ⟨.ok "valid: true".toList, .ok [], .ok none⟩).1 =
      .error (.valueError "No response generated from the model".toList) ∧
    (generate_terraform ⟨.ok "valid: true".toList, .ok [], .error "boom".toList⟩).1 =
      .error (.exception
        ("Failed to generate Terraform configuration: ".toList ++ "boom".toList)) :=
  ⟨(generate_terraform_error_kinds
      ⟨.ok "valid: false".toList, .ok [], .ok none⟩).1 (by decide),
   (generate_terraform_error_kinds
      ⟨.ok "valid: true".toList, .ok [], .ok none⟩).2.1 (by decide) rfl,
   (generate_terraform_error_kinds
      ⟨.ok "valid: true".toList, .ok [], .error "boom".toList⟩).2.2
     "boom".toList (by decide) rfl⟩

/-- C7 counterexample: the file `a.tfb.tf` is loaded (its name ends with
`.tf`), but its type label is `ab` — `filename.replace('.tf', '')` removes
EVERY occurrence of `.tf`, not only the extension, so the label is not the
filename minus its extension (`a.tfb`). -/
theorem template_label_counterexample :
    load_templates [("a.tfb.tf".toList, "c".toList)] =
      [{ page_content := "c".toList, source := "a.tfb.tf".toList,
         type := "ab".toList }] ∧
    (("ab".toList : PyStr) == "a.tfb".toList) = false := by
  decide

/-- C7 amended: a listed file yields a document iff its name ends with `.tf`,
and the document's type label is the filename with every occurrence of the
substring `.tf` removed (which equals the filename stem exactly when `.tf`
occurs only as the extension, e.g. `storage.tf ↦ storage`); content and source
name are taken verbatim. -/
theorem load_templates_mem (files : List (PyStr × PyStr)) (d : Document) :
    d ∈ load_templates files ↔
      ∃ fc ∈ files, pyEndsWith ".tf".toList fc.1 = true ∧
        d = { page_content := fc.2, source := fc.1,
              type := pyReplace ".tf".toList [] fc.1 } := by
  simp only [load_templates, List.mem_filterMap]
  constructor
  · rintro ⟨fc, hmem, hf⟩
    by_cases h : pyEndsWith ".tf".toList fc.1 = true
    · rw [if_pos h] at hf
      exact ⟨fc, hmem, h, (Option.some_inj.mp hf).symm⟩
    · rw [if_neg h] at hf
      exact absurd hf (by simp)
  · rintro ⟨fc, hmem, h, rfl⟩
    exact ⟨fc, hmem, by rw [if_pos h]⟩

theorem load_templates_mem_witness :
    ({ page_content := "X".toList, source := "storage.tf".toList,
       type := "storage".toList } : Document) ∈
      load_templates [("storage.tf".toList, "X".toList)] :=
  (load_templates_mem [("storage.tf".toList, "X".toList)]
      { page_content := "X".toList, source := "storage.tf".toList,
        type := "storage".toList }).mpr
    ⟨("storage.tf".toList, "X".toList), by decide, by decide, by decide⟩

/-- C8: constructing the agent when the template directory does not exist
raises `FileNotFoundError` (the spec's `ConfigurationError`) naming the
directory, with zero network calls made: `AzureTerraformAgent.__init__`
checks `os.path.exists` before constructing `TerraformRAGEngine`, whose
embedding smoke test is the first network call of a startup. -/
theorem agent_init_missing_dir_no_network (splitText : PyStr → List PyStr)
    (w : InitWorld) (k : PyStr) (hk : w.api_key = some k)
    (hd : w.dir_exists = false) :
    agent_init splitText w =
      (.error (.fileNotFound
        ("Template directory not found: ".toList ++ w.template_dir)), 0) := by
  simp only [agent_init, hk, hd, Bool.not_false, if_pos]

theorem agent_init_missing_dir_no_network_witness :
    agent_init (fun s => [s])
        { api_key := some "k".toList, embed_test := .ok [1],
          template_dir := "templates".toList, dir_exists := false, files := [] } =
      (.error (.fileNotFound
        ("Template directory not found: ".toList ++ "templates".toList)), 0) :=
  agent_init_missing_dir_no_network (fun s => [s])
    { api_key := some "k".toList, embed_test := .ok [1],
      template_dir := "templates".toList, dir_exists := false, files := [] }
    "k".toList rfl rfl

/-- C9: every chunk handed to the vector store carries the type label (and
source name) of the template document it was split from, and its text is one
of the pieces of that document's content — for any splitting function. -/
theorem chunk_label_preservation (splitText : PyStr → List PyStr)
    (files : List (PyStr × PyStr)) (chunk : Document)
    (h : chunk ∈ initialize_vector_store splitText files) :
    ∃ doc ∈ load_templates files,
      chunk.type = doc.type ∧ chunk.source = doc.source ∧
      chunk.page_content ∈ splitText doc.page_content := by
  simp only [initialize_vector_store, split_documents, List.mem_flatMap,
    List.mem_map] at h
  obtain ⟨doc, hdoc, piece, hpiece, rfl⟩ := h
  exact ⟨doc, hdoc, rfl, rfl, hpiece⟩

theorem chunk_label_preservation_witness :
    ∃ doc ∈ load_templates [("storage.tf".toList, "XY".toList)],
      ({ page_content := "X".toList, source := "storage.tf".toList,
         type := "storage".toList } : Document).type = doc.type ∧
      ({ page_content := "X".toList, source := "storage.tf".toList,
         type := "storage".toList } : Document).source = doc.source ∧
      ({ page_content := "X".toList, source := "storage.tf".toList,
         type := "storage".toList } : Document).page_content ∈
        (fun s : PyStr => [s.take 1, s.drop 1]) doc.page_content :=
  chunk_label_preservation (fun s => [s.take 1, s.drop 1])
    [("storage.tf".toList, "XY".toList)]
    { page_content := "X".toList, source := "storage.tf".toList,
      type := "storage".toList } (by decide)

/-- C10: the classifier's result list always has at least one element —
`str.split` yields at least one token, and both fallback paths return the
two-element default — and hence the filter the orchestrator hands to the
retriever is never the empty list. -/
theorem retriever_filter_nonempty :
    (∀ llm : LLMResult, 0 < (get_relevant_templates llm).length) ∧
    (∀ env : Env, ∀ fl, (generate_terraform env).2.retriever_filter = some fl →
      0 < fl.length) := by
  have hlen : ∀ llm : LLMResult, 0 < (get_relevant_templates llm).length := by
    intro llm
    rcases llm with e | content
    · simp [get_relevant_templates]
    · simp only [get_relevant_templates]
      split
      · simp
      · rw [List.length_map]
        exact List.length_pos.mpr (pySplitChar_ne_nil ',' content)
  refine ⟨hlen, fun env fl h => ?_⟩
  by_cases hv : (validate_query env.validate_llm).1
  · rcases hs : env.synth with e | o
    · simp only [generate_terraform, hv, Bool.not_true, Bool.false_eq_true,
        if_false, hs] at h
      exact Option.some_inj.mp h ▸ hlen env.classify_llm
    · rcases o with _ | a <;>
        simp only [generate_terraform, hv, Bool.not_true, Bool.false_eq_true,
          if_false, hs] at h <;>
        exact Option.some_inj.mp h ▸ hlen env.classify_llm
  · rw [Bool.not_eq_true] at hv
    simp only [generate_terraform, hv, Bool.not_false, if_true] at h
    exact absurd h (by simp)

theorem retriever_filter_nonempty_witness :
    0 < (["virtual_machine".toList, "storage".toList] : List PyStr).length :=
  retriever_filter_nonempty.2
    ⟨.ok "valid: true".toList, .ok [], .ok (some "out".toList)⟩
    ["virtual_machine".toList, "storage".toList] (by decide)
